import Mathlib

/-!
# Verification of the Helix-Agent client synchronization layer

Shallow embedding of the session/event synchronization layer of the
Helix-Agent chat client: the `SocketProvider` component (session
negotiation, inbound event reconciliation, outbound operations, teardown),
the `useLocalStorage` persistence hook, and the input guards in
`ChatPanel` / `SequenceMessageItem`.

Machine-level conventions: JavaScript `string | null` values are
`Option String`; JavaScript truthiness of a string (`""` and `null`/
`undefined` are falsy) is made explicit; timers are modelled by a
discrete-time event-loop semantics where an inbound event arriving at
tick `t` has its effect applied at tick `t` (immediate handlers) or
`t + 2000` (handlers wrapped in `setTimeout(..., 2000)`).
-/

namespace Helix

/-! ## Data model (src/client/src/types/conversations.ts) -/

/-- The `role` field of a `ConversationMessage`: `"user" | "assistant" | "tool"`. -/
inductive Role where
  | user
  | assistant
  | tool
deriving DecidableEq, Repr

/-- `ConversationMessage = { role, content, name?, tool_call_id? }`. -/
structure ConversationMessage where
  role : Role
  content : String
  name : Option String := none
  tool_call_id : Option String := none
deriving DecidableEq, Repr

/-- `OutreachMessage = { id, type, subject, content, timing, order }`.
The `type` field (`MessageType | string`) is a string at runtime, so it is
embedded as `String`; `order : number` is embedded as `Int`. -/
structure OutreachMessage where
  id : String
  type : String
  subject : String
  content : String
  timing : String
  order : Int
deriving DecidableEq, Repr

/-! ## Transport events (outbound payloads emitted by the provider) -/

/-- Outbound socket events emitted by `SocketProvider`.  Every payload's
`session_id` field is `string | null` in the code, hence `Option String`. -/
inductive OutboundEvent where
  | join_session (session_id : Option String)
  | leave_session (session_id : Option String)
  | chat_message (session_id : Option String) (message : String)
  | update_sequence (session_id : Option String) (msg_id : String) (content : String)
deriving DecidableEq, Repr

/-! ## JavaScript string truthiness and trimming -/

/-- JavaScript truthiness of a `string | null` value: `null` and `""` are falsy.
This is the test `!currentSessionId` in `joinOrCreateSession`. -/
def jsTruthy : Option String → Bool
  | none => false
  | some s => !(s == "")

/-- The character class trimmed by JavaScript `String.prototype.trim`
(ECMAScript WhiteSpace ∪ LineTerminator). -/
def isJsWhitespace (c : Char) : Bool :=
  c.toNat = 0x9 || c.toNat = 0xA || c.toNat = 0xB || c.toNat = 0xC ||
  c.toNat = 0xD || c.toNat = 0x20 || c.toNat = 0xA0 || c.toNat = 0x1680 ||
  (0x2000 ≤ c.toNat && c.toNat ≤ 0x200A) || c.toNat = 0x2028 ||
  c.toNat = 0x2029 || c.toNat = 0x202F || c.toNat = 0x205F ||
  c.toNat = 0x3000 || c.toNat = 0xFEFF

/-- JavaScript `s.trim()`: strip leading and trailing whitespace. -/
def jsTrim (s : String) : String :=
  String.mk (((s.data.dropWhile isJsWhitespace).reverse.dropWhile isJsWhitespace).reverse)

/-! ## Provider state and outbound operations (src/unnamed/part_001) -/

/-- The mutable state held by `SocketProvider`:
`chat`, `toolNotification`, `sequence`, and the two persisted ids. -/
structure ProviderState where
  chat : List ConversationMessage
  toolNotification : Option String
  sequence : List OutreachMessage
  sessionId : Option String
  userId : Option String
deriving DecidableEq, Repr

/-- `sendMessage(msg)`: unconditionally emits
`chat_message { session_id: sessionId, message: msg }` and appends
`{ role: "user", content: msg }` to the chat log.  There is no guard on
`sessionId` and no blank-input check in this function. -/
def sendMessage (st : ProviderState) (msg : String) : ProviderState × List OutboundEvent :=
  ({ st with chat := st.chat ++ [{ role := Role.user, content := msg }] },
   [OutboundEvent.chat_message st.sessionId msg])

/-- `sendSequenceUpdate(msgId, newContent)`: maps over the sequence replacing
`content` on the item whose `id` matches, and unconditionally emits
`update_sequence { session_id: sessionId, msg_id: msgId, content: newContent }`. -/
def sendSequenceUpdate (st : ProviderState) (msgId : String) (newContent : String) :
    ProviderState × List OutboundEvent :=
  ({ st with
      sequence := st.sequence.map fun m =>
        if m.id = msgId then { m with content := newContent } else m },
   [OutboundEvent.update_sequence st.sessionId msgId newContent])

/-- `ChatPanel.handleSend`: `if (!input.trim()) return; sendMessage(input);`.
This is the only caller of `sendMessage`, so the pair is the spec's
`appendUserMessage`. -/
def handleSend (st : ProviderState) (input : String) : ProviderState × List OutboundEvent :=
  if jsTrim input = "" then (st, []) else sendMessage st input

/-- `SequenceMessageItem.handleSave` followed by `SequencePanel.updateMessage`:
`if (content.trim() === "") return; onUpdate(content);` where `onUpdate`
calls `sendSequenceUpdate(id, newContent)`.  This is the spec's
`editSequenceItem` as reachable from the UI. -/
def handleSave (st : ProviderState) (msgId : String) (content : String) :
    ProviderState × List OutboundEvent :=
  if jsTrim content = "" then (st, []) else sendSequenceUpdate st msgId content

/-! ## Session negotiation (src/unnamed/part_001, `joinOrCreateSession`) -/

/-- Outcome of one `axios.post("http://localhost:4000/api/session")` request:
either `{ session_id }` or a thrown error. -/
inductive Resp where
  | ok (session_id : String)
  | err
deriving DecidableEq, Repr

/-- One observable action performed by `joinOrCreateSession`, in
chronological order: an HTTP session-creation request, a `setSessionId`
call (write-through to React state and `localStorage`), or a socket emit. -/
inductive NegAct where
  | createReq
  | persist (v : Option String)
  | send (e : OutboundEvent)
deriving DecidableEq, Repr

/-- `joinOrCreateSession(socket, existingSessionId?)`.  `resps` is the oracle
of successive outcomes of the session-creation request; each recursive retry
(the `catch` block) consumes the next outcome.  An empty oracle truncates the
run (the real request would still be pending).  Faithful to the source:
the guard is JavaScript truthiness (`if (!currentSessionId)`), the returned
id is persisted via `setSessionId` before `join_session` is emitted, and the
`catch` block does `setSessionId(null)` then recurses with no argument. -/
def joinOrCreateSession (existingSessionId : Option String) (resps : List Resp) :
    List NegAct :=
  if jsTruthy existingSessionId then
    [NegAct.send (OutboundEvent.join_session existingSessionId)]
  else
    match resps with
    | [] => [NegAct.createReq]
    | Resp.ok sid :: _ =>
        [NegAct.createReq, NegAct.persist (some sid),
         NegAct.send (OutboundEvent.join_session (some sid))]
    | Resp.err :: rest =>
        NegAct.createReq :: NegAct.persist none :: joinOrCreateSession none rest

/-- The value `setSessionId` leaves in React state and `localStorage` after a
list of `persist` actions (last write wins, starting from the mount value). -/
def finalSessionId (s0 : Option String) (acts : List NegAct) : Option String :=
  acts.foldl (fun acc a => match a with | NegAct.persist v => v | _ => acc) s0

/-! ## Mount, teardown and the full provider run (src/unnamed/part_001) -/

/-- An observable transport action of the `useEffect` cleanup. -/
inductive TransportAct where
  | emit (e : OutboundEvent)
  | disconnect
deriving DecidableEq, Repr

/-- The `useEffect` cleanup:
`socket.emit("leave_session", { session_id: sessionId }); socket.disconnect();`.
Since the effect has `[]` dependencies, the `sessionId` it reads is the one
captured by the closure at mount time. -/
def cleanup (capturedSessionId : Option String) : List TransportAct :=
  [TransportAct.emit (OutboundEvent.leave_session capturedSessionId),
   TransportAct.disconnect]

/-- A whole provider run for claims about negotiation and teardown:
mount with stored session id `s0` (the value `useLocalStorage` yields at the
render whose effect registers the handlers), connect (which runs
`joinOrCreateSession(socket, sessionId ?? undefined)` with the captured
`s0`), then unmount.  Returns the negotiation trace, the session id held in
state/storage at the instant of teardown, and the teardown transport actions.
`sessionId ?? undefined` maps `none` to an absent argument, which the callee
receives as the same `Option String`. -/
def providerRun (s0 : Option String) (resps : List Resp) :
    List NegAct × Option String × List TransportAct :=
  let trace := joinOrCreateSession s0 resps
  (trace, finalSessionId s0 trace, cleanup s0)

/-! ## Inbound event reconciliation (src/unnamed/part_001, socket handlers)

The three inbound handlers are:
- `tool_call`: `setToolNotification(data.message)` — synchronous;
- `chat_message`: `setTimeout(() => { setToolNotification(null);
  setChat(prev => [...prev, { role, content: data.message }]); }, 2000)`;
- `sequence_updated`: `setTimeout(() => { setToolNotification(null);
  setSequence(data.sequence); }, 2000)`.

Discrete-time event-loop semantics: an inbound event arriving at tick `t`
has its effect applied at tick `t` for `tool_call` and at tick `t + 2000`
for the two result events.  `stateUpTo es k` is the state after every
effect scheduled at a tick `≤ k` has run (within one tick, arrival order). -/

/-- An inbound socket event. -/
inductive InEvent where
  | tool_call (message : String)
  | chat_message (role : Role) (message : String)
  | sequence_updated (sequence : List OutreachMessage)
deriving DecidableEq, Repr

/-- The fixed visibility delay of the two `setTimeout` calls. -/
def delayMs : Nat := 2000

/-- The tick at which the effect of an inbound event arriving at tick `t`
runs: immediately for `tool_call`, `t + 2000` for the delayed handlers. -/
def effectTime : Nat × InEvent → Nat
  | (t, InEvent.tool_call _) => t
  | (t, InEvent.chat_message _ _) => t + delayMs
  | (t, InEvent.sequence_updated _) => t + delayMs

/-- The state transformation performed by an event's handler body
(for `tool_call`) or timeout callback (for the result events). -/
def applyEvent (e : InEvent) (st : ProviderState) : ProviderState :=
  match e with
  | InEvent.tool_call m => { st with toolNotification := some m }
  | InEvent.chat_message r m =>
      { st with
          toolNotification := none,
          chat := st.chat ++ [{ role := r, content := m }] }
  | InEvent.sequence_updated sq =>
      { st with toolNotification := none, sequence := sq }

/-- Run every effect of `es` scheduled exactly at tick `k`, in arrival order. -/
def runTick (es : List (Nat × InEvent)) (k : Nat) (st : ProviderState) : ProviderState :=
  (es.filter (fun te => effectTime te = k)).foldl (fun s te => applyEvent te.2 s) st

/-- The provider state at tick `k`, starting from `s0` at tick `0` (before
tick-0 effects), for a run whose inbound events are the timed list `es`. -/
def stateUpTo (s0 : ProviderState) (es : List (Nat × InEvent)) : Nat → ProviderState
  | 0 => runTick es 0 s0
  | k + 1 => runTick es (k + 1) (stateUpTo s0 es k)

/-- The initial state of `SocketProvider` on a fresh load with empty
storage: empty chat, no notification, empty sequence, no ids. -/
def initialState : ProviderState :=
  { chat := [], toolNotification := none, sequence := [],
    sessionId := none, userId := none }

/-! ## Persistence (src/client/src/hooks/useLocalStorage.ts)

The hook stores JSON-serialized values under string keys.  The two
instantiations in the provider bind `string | null` values
(`session_id`, `user_id`), so the value domain is `Option String` and the
serializer is `JSON.stringify` / `JSON.parse` restricted to that fragment
(JSON string literals and `null`), modelled per ECMA-404 / ECMA-262
`QuoteJSONString`, including the two-character escapes and `\u00xx`
escapes for control characters. -/

/-- Lowercase hex digit character for `n < 16` (as produced by
`JSON.stringify`). -/
def hexDigitChar (n : Nat) : Char :=
  if n < 10 then Char.ofNat (48 + n) else Char.ofNat (87 + n)

/-- Numeric value of a hex digit character, `none` if not a hex digit. -/
def hexVal (c : Char) : Option Nat :=
  if 48 ≤ c.toNat ∧ c.toNat ≤ 57 then some (c.toNat - 48)
  else if 97 ≤ c.toNat ∧ c.toNat ≤ 102 then some (c.toNat - 87)
  else if 65 ≤ c.toNat ∧ c.toNat ≤ 70 then some (c.toNat - 55)
  else none

/-- The escape sequence `JSON.stringify` emits for one character:
`\"` and `\\`, the named control escapes `\b \t \n \f \r`, `\u00xx` for the
remaining control characters, and the character itself otherwise. -/
def escChar (c : Char) : List Char :=
  if c = '"' then ['\\', '"']
  else if c = '\\' then ['\\', '\\']
  else if c.toNat = 8 then ['\\', 'b']
  else if c.toNat = 9 then ['\\', 't']
  else if c.toNat = 10 then ['\\', 'n']
  else if c.toNat = 12 then ['\\', 'f']
  else if c.toNat = 13 then ['\\', 'r']
  else if c.toNat < 32 then
    ['\\', 'u', '0', '0', hexDigitChar (c.toNat / 16), hexDigitChar (c.toNat % 16)]
  else [c]

/-- Escape a whole character list. -/
def escapeChars : List Char → List Char
  | [] => []
  | c :: cs => escChar c ++ escapeChars cs

/-- `JSON.stringify` on the value domain stored by the hook
(`string | null`). -/
def jsonStringify : Option String → String
  | none => "null"
  | some s => String.mk ('"' :: (escapeChars s.data ++ ['"']))

/-- Parse the body of a JSON string literal (everything after the opening
quote), requiring the closing quote to end the input; `acc` holds the
decoded characters in reverse. -/
def parseStringBody (acc : List Char) : List Char → Option (List Char)
  | [] => none
  | c :: rest =>
    if c = '"' then
      if rest = [] then some acc.reverse else none
    else if c = '\\' then
      match rest with
      | [] => none
      | e :: rest2 =>
        if e = '"' then parseStringBody ('"' :: acc) rest2
        else if e = '\\' then parseStringBody ('\\' :: acc) rest2
        else if e = '/' then parseStringBody ('/' :: acc) rest2
        else if e = 'b' then parseStringBody (Char.ofNat 8 :: acc) rest2
        else if e = 't' then parseStringBody (Char.ofNat 9 :: acc) rest2
        else if e = 'n' then parseStringBody (Char.ofNat 10 :: acc) rest2
        else if e = 'f' then parseStringBody (Char.ofNat 12 :: acc) rest2
        else if e = 'r' then parseStringBody (Char.ofNat 13 :: acc) rest2
        else if e = 'u' then
          match rest2 with
          | h1 :: h2 :: h3 :: h4 :: rest3 =>
            match hexVal h1, hexVal h2, hexVal h3, hexVal h4 with
            | some a, some b, some c2, some d =>
                parseStringBody (Char.ofNat (((a * 16 + b) * 16 + c2) * 16 + d) :: acc) rest3
            | _, _, _, _ => none
          | _ => none
        else none
    else parseStringBody (c :: acc) rest

/-- `JSON.parse` restricted to the fragment this hook ever stores
(`null` and string literals); any other input is a parse failure
(`none` models a thrown `SyntaxError`). -/
def jsonParse (s : String) : Option (Option String) :=
  if s = "null" then some none
  else
    match s.data with
    | '"' :: rest => (parseStringBody [] rest).map (fun cs => some (String.mk cs))
    | _ => none

/-- The `localStorage` key/value surface. -/
def Medium : Type := String → Option String

/-- `localStorage.setItem(k, v)`. -/
def setItem (m : Medium) (k v : String) : Medium :=
  fun k' => if k' = k then some v else m k'

/-- The `useState` initializer of `useLocalStorage`: read the key and
evaluate `item ? JSON.parse(item) : initialValue` inside `try`, so a
missing key, a falsy (empty) item or a parse failure all yield
`initialValue`. -/
def useLocalStorageInit (medium : Medium) (key : String) (initialValue : Option String) :
    Option String :=
  match medium key with
  | none => initialValue
  | some item =>
    if item = "" then initialValue
    else
      match jsonParse item with
      | some v => v
      | none => initialValue

/-- The `useEffect(..., [key])` body of `useLocalStorage`: re-read the key;
`if (item)` is truthy, `setStoredValue(JSON.parse(item))` runs with no
`try`/`catch` (a parse failure propagates as a thrown exception, modelled
as `Except.error`); a missing or falsy item leaves the state at its
current value — the initializer's fallback to the supplied default is not
re-applied here. -/
def storageSyncEffect (medium : Medium) (key : String) (current : Option String) :
    Except Unit (Option String) :=
  match medium key with
  | none => Except.ok current
  | some item =>
    if item = "" then Except.ok current
    else
      match jsonParse item with
      | some v => Except.ok v
      | none => Except.error ()

/-- `setValue` of `useLocalStorage`: write-through mutation — update the
state value and persist `JSON.stringify(value)` under the key. -/
def setValue (medium : Medium) (key : String) (v : Option String) :
    Option String × Medium :=
  (v, setItem medium key (jsonStringify v))

/-! ## Helper lemmas -/

/-- Replacing content by id is the identity when no element matches. -/
theorem map_replace_eq_self {l : List OutreachMessage} {msgId c : String}
    (h : ∀ m ∈ l, m.id ≠ msgId) :
    (l.map fun m => if m.id = msgId then { m with content := c } else m) = l := by
  induction l with
  | nil => rfl
  | cons a l ih =>
      simp only [List.map_cons]
      rw [if_neg (h a (by simp)), ih (fun m hm => h m (by simp [hm]))]

/-- Every `join_session` notice in a negotiation trace carries a non-null id. -/
theorem join_session_id_ne_none :
    ∀ (resps : List Resp) (s0 : Option String) (sid : Option String),
      NegAct.send (OutboundEvent.join_session sid) ∈ joinOrCreateSession s0 resps →
      sid ≠ none := by
  intro resps
  induction resps with
  | nil =>
      intro s0 sid h
      rw [joinOrCreateSession.eq_def] at h
      split at h
      · rename_i ht
        simp at h
        cases s0 with
        | none => simp [jsTruthy] at ht
        | some s => simp [h]
      · simp at h
  | cons hd tl ih =>
      intro s0 sid h
      rw [joinOrCreateSession.eq_def] at h
      split at h
      · rename_i ht
        simp at h
        cases s0 with
        | none => simp [jsTruthy] at ht
        | some s => simp [h]
      · cases hd with
        | ok s => simp at h; simp [h]
        | err =>
            simp at h
            exact ih none sid (by simpa using h)

/-- `runTick` on a single-event run. -/
theorem runTick_single (t : Nat) (e : InEvent) (k : Nat) (st : ProviderState) :
    runTick [(t, e)] k st = if effectTime (t, e) = k then applyEvent e st else st := by
  by_cases h : effectTime (t, e) = k <;> simp [runTick, List.filter_cons, h]

/-- `runTick` on a two-event run (arrival order within one tick). -/
theorem runTick_pair (a b : Nat × InEvent) (k : Nat) (st : ProviderState) :
    runTick [a, b] k st =
      if effectTime b = k then
        (if effectTime a = k then applyEvent b.2 (applyEvent a.2 st)
         else applyEvent b.2 st)
      else (if effectTime a = k then applyEvent a.2 st else st) := by
  by_cases ha : effectTime a = k <;> by_cases hb : effectTime b = k <;>
    simp [runTick, List.filter_cons, ha, hb]

/-- Closed form of the timed semantics for a run with a single inbound
event: nothing is visible before the effect tick, everything after. -/
theorem stateUpTo_single (s0 : ProviderState) (t : Nat) (e : InEvent) (τ : Nat) :
    stateUpTo s0 [(t, e)] τ =
      if effectTime (t, e) ≤ τ then applyEvent e s0 else s0 := by
  induction τ with
  | zero =>
      rw [stateUpTo, runTick_single]
      by_cases h : effectTime (t, e) = 0
      · rw [if_pos h, if_pos (by omega)]
      · rw [if_neg h, if_neg (by omega)]
  | succ k ih =>
      rw [stateUpTo, runTick_single, ih]
      by_cases h1 : effectTime (t, e) = k + 1
      · rw [if_pos h1, if_neg (by omega), if_pos (by omega)]
      · by_cases h2 : effectTime (t, e) ≤ k
        · rw [if_neg h1, if_pos h2, if_pos (by omega)]
        · rw [if_neg h1, if_neg h2, if_neg (by omega)]

/-- Closed form of the timed semantics for the run "tool-invocation at `t1`,
chat-result at `t2`" with `t1 < t2`: three phases separated by `t1` and
`t2 + 2000`. -/
theorem stateUpTo_pair (s0 : ProviderState) (t1 t2 : Nat) (m m2 : String) (r : Role)
    (h12 : t1 < t2) (τ : Nat) :
    stateUpTo s0 [(t1, InEvent.tool_call m), (t2, InEvent.chat_message r m2)] τ =
      if τ < t1 then s0
      else if τ < t2 + 2000 then { s0 with toolNotification := some m }
      else { s0 with toolNotification := none,
                     chat := s0.chat ++ [{ role := r, content := m2 }] } := by
  induction τ with
  | zero =>
      rw [stateUpTo, runTick_pair]
      simp only [effectTime, delayMs]
      rw [if_neg (by omega : ¬ t2 + 2000 = 0)]
      by_cases h1 : t1 = 0
      · rw [if_pos h1, if_neg (by omega), if_pos (by omega)]
        rfl
      · rw [if_neg h1, if_pos (by omega)]
  | succ k ih =>
      rw [stateUpTo, runTick_pair, ih]
      simp only [effectTime, delayMs]
      by_cases h1 : t1 = k + 1
      · rw [if_neg (by omega : ¬ t2 + 2000 = k + 1), if_pos h1,
            if_pos (by omega : k < t1), if_neg (by omega : ¬ k + 1 < t1),
            if_pos (by omega : k + 1 < t2 + 2000)]
        rfl
      · by_cases h2 : t2 + 2000 = k + 1
        · rw [if_pos h2, if_neg h1, if_neg (by omega : ¬ k < t1),
              if_pos (by omega : k < t2 + 2000),
              if_neg (by omega : ¬ k + 1 < t1),
              if_neg (by omega : ¬ k + 1 < t2 + 2000)]
          rfl
        · rw [if_neg h2, if_neg h1]
          by_cases h3 : k + 1 < t1
          · rw [if_pos (by omega : k < t1), if_pos h3]
          · by_cases h4 : k + 1 < t2 + 2000
            · rw [if_neg (by omega : ¬ k < t1), if_pos (by omega : k < t2 + 2000),
                  if_neg h3, if_pos h4]
            · rw [if_neg (by omega : ¬ k < t1), if_neg (by omega : ¬ k < t2 + 2000),
                  if_neg h3, if_neg h4]

/-! ## Claim theorems -/

/-- C1: in a run where a tool-invocation event arrives at `t1` with the
notification initially clear, a chat-result event arrives at `t2 > t1`, and
no further tool-invocation event arrives, `toolNotification` is null before
`t1`, non-null (holding the tool message) at every instant strictly between
`t1` and `t2 + 2000`, and null after that deadline.  In particular the
result event's arrival at `t2` does not clear it early. -/
theorem toolNotification_window (s0 : ProviderState) (h0 : s0.toolNotification = none)
    (t1 t2 : Nat) (m m2 : String) (r : Role) (h12 : t1 < t2) (τ : Nat) :
    (τ < t1 →
      (stateUpTo s0 [(t1, InEvent.tool_call m), (t2, InEvent.chat_message r m2)]
        τ).toolNotification = none) ∧
    (t1 < τ → τ < t2 + 2000 →
      (stateUpTo s0 [(t1, InEvent.tool_call m), (t2, InEvent.chat_message r m2)]
        τ).toolNotification = some m) ∧
    (t2 + 2000 < τ →
      (stateUpTo s0 [(t1, InEvent.tool_call m), (t2, InEvent.chat_message r m2)]
        τ).toolNotification = none) := by
  refine ⟨fun h => ?_, fun h h2 => ?_, fun h => ?_⟩
  · rw [stateUpTo_pair s0 t1 t2 m m2 r h12 τ, if_pos h]; exact h0
  · rw [stateUpTo_pair s0 t1 t2 m m2 r h12 τ, if_neg (by omega), if_pos h2]
  · rw [stateUpTo_pair s0 t1 t2 m m2 r h12 τ, if_neg (by omega), if_neg (by omega)]

/-- C1 (witness): tool event at tick 1, chat-result at tick 2, observed at
tick 2 (strictly inside the window): the notification is visible. -/
theorem toolNotification_window_witness :
    (stateUpTo initialState
      [(1, InEvent.tool_call "Searching candidates..."),
       (2, InEvent.chat_message Role.assistant "done")] 2).toolNotification =
      some "Searching candidates..." :=
  (toolNotification_window initialState rfl 1 2 "Searching candidates..." "done"
    Role.assistant (by omega) 2).2.1 (by omega) (by omega)

/-- C2: a chat-result event arriving at `t` leaves the state untouched at
every instant before `t + 2000` and, from `t + 2000` on, has cleared the
notification and appended exactly one entry with the given role and
content; a sequence-result event likewise leaves the state untouched before
`t + 2000` and, from `t + 2000` on, has cleared the notification and
replaced the entire sequence with the provided snapshot. -/
theorem resultEvent_delayed_apply (s0 : ProviderState) (t : Nat) (r : Role) (m : String)
    (sq : List OutreachMessage) (τ : Nat) :
    (τ < t + 2000 → stateUpTo s0 [(t, InEvent.chat_message r m)] τ = s0) ∧
    (t + 2000 ≤ τ →
      stateUpTo s0 [(t, InEvent.chat_message r m)] τ =
        { s0 with toolNotification := none,
                  chat := s0.chat ++ [{ role := r, content := m }] }) ∧
    (τ < t + 2000 → stateUpTo s0 [(t, InEvent.sequence_updated sq)] τ = s0) ∧
    (t + 2000 ≤ τ →
      stateUpTo s0 [(t, InEvent.sequence_updated sq)] τ =
        { s0 with toolNotification := none, sequence := sq }) := by
  refine ⟨fun h => ?_, fun h => ?_, fun h => ?_, fun h => ?_⟩ <;>
    rw [stateUpTo_single] <;> simp only [effectTime, delayMs]
  · rw [if_neg (by omega)]
  · rw [if_pos (by omega)]; rfl
  · rw [if_neg (by omega)]
  · rw [if_pos (by omega)]; rfl

/-- C2 (witness): a chat-result arriving at tick 0, observed at tick 2000:
notification cleared, one entry appended; at tick 1999: nothing yet. -/
theorem resultEvent_delayed_apply_witness :
    stateUpTo initialState [(0, InEvent.chat_message Role.assistant "ok")] 1999 =
      initialState ∧
    stateUpTo initialState [(0, InEvent.chat_message Role.assistant "ok")] 2000 =
      { initialState with
          toolNotification := none,
          chat := initialState.chat ++ [{ role := Role.assistant, content := "ok" }] } :=
  ⟨(resultEvent_delayed_apply initialState 0 Role.assistant "ok" [] 1999).1 (by omega),
   (resultEvent_delayed_apply initialState 0 Role.assistant "ok" [] 2000).2.1 (by omega)⟩



/-- C3 (counterexample): with the session id `""` already known, the code's
truthiness guard (`if (!currentSessionId)`) treats it as absent — a
creation request IS made, and the join notice carries the freshly created
id rather than the known one, contradicting the claim. -/
theorem known_empty_session_counterexample :
    NegAct.createReq ∈ joinOrCreateSession (some "") [Resp.ok "srv-1"] ∧
    joinOrCreateSession (some "") [Resp.ok "srv-1"] ≠
      [NegAct.send (OutboundEvent.join_session (some ""))] := by decide

/-- C3 (amended): if a non-empty session id is already known, no request is
made to the session-creation collaborator and a join notice carrying that id
is sent; if no session id is known, or the known id is the empty string, one
creation request is made, the returned id is persisted via the identity
store before the join notice is sent, and the join notice carries the
returned id. -/
theorem joinOrCreateSession_contract (s : String) (hs : s ≠ "") (sid : String)
    (resps rest : List Resp) :
    joinOrCreateSession (some s) resps =
      [NegAct.send (OutboundEvent.join_session (some s))] ∧
    joinOrCreateSession none (Resp.ok sid :: rest) =
      [NegAct.createReq, NegAct.persist (some sid),
       NegAct.send (OutboundEvent.join_session (some sid))] ∧
    joinOrCreateSession (some "") (Resp.ok sid :: rest) =
      [NegAct.createReq, NegAct.persist (some sid),
       NegAct.send (OutboundEvent.join_session (some sid))] := by
  refine ⟨?_, ?_, ?_⟩
  · rw [joinOrCreateSession.eq_def]; simp [jsTruthy, hs]
  · rw [joinOrCreateSession.eq_def]; simp [jsTruthy]
  · rw [joinOrCreateSession.eq_def]; simp [jsTruthy]

/-- C3 (witness): the spec's scenario — stored id `"sess-42"` present, no
creation request, join notice sent directly with `"sess-42"`. -/
theorem joinOrCreateSession_contract_witness :
    joinOrCreateSession (some "sess-42") [] =
      [NegAct.send (OutboundEvent.join_session (some "sess-42"))] :=
  (joinOrCreateSession_contract "sess-42" (by decide) "x" [] []).1

/-- C4 (counterexample): on a fresh load (`sessionId` still null) the user
can submit `"hi"`; `handleSend` calls `sendMessage`, which emits
`chat_message { session_id: null }` — a session-scoped outbound event sent
while the locally held `sessionId` is null, contradicting the claim. -/
theorem outbound_while_null_session_counterexample :
    initialState.sessionId = none ∧
    (handleSend initialState "hi").2 = [OutboundEvent.chat_message none "hi"] ∧
    (sendSequenceUpdate initialState "m1" "c").2 =
      [OutboundEvent.update_sequence none "m1" "c"] := by decide

/-- C4 (amended): `join_session` notices always carry a non-null session id,
but `chat_message` and `update_sequence` are emitted unconditionally
carrying whatever `sessionId` is currently held — including null — because
`sendMessage` and `sendSequenceUpdate` have no session guard. -/
theorem outbound_session_id_policy (st : ProviderState) (s0 : Option String)
    (resps : List Resp) (input msgId c : String) :
    (∀ sid, NegAct.send (OutboundEvent.join_session sid) ∈ joinOrCreateSession s0 resps →
        sid ≠ none) ∧
    (jsTrim input ≠ "" →
        (handleSend st input).2 = [OutboundEvent.chat_message st.sessionId input]) ∧
    (sendSequenceUpdate st msgId c).2 =
        [OutboundEvent.update_sequence st.sessionId msgId c] :=
  ⟨fun sid h => join_session_id_ne_none resps s0 sid h,
   fun h => by simp [handleSend, h, sendMessage],
   rfl⟩

/-- C4 (amended, witness): join id concretely non-null; chat emit with null id. -/
theorem outbound_session_id_policy_witness :
    (some "sess-1" : Option String) ≠ none ∧
    (handleSend initialState "hi").2 = [OutboundEvent.chat_message none "hi"] :=
  ⟨(outbound_session_id_policy initialState (some "sess-1") [] "hi" "m" "c").1
      (some "sess-1") (by decide),
   (outbound_session_id_policy initialState (some "sess-1") [] "hi" "m" "c").2.1
      (by decide)⟩

/-- C5 (counterexample): fresh load (no stored id), negotiation creates
`"sess-123"` and persists it, then the component unmounts.  The session id
known at the instant of teardown is `some "sess-123"`, yet the leave notice
carries `null` — the cleanup closure captured the mount-time `sessionId` —
contradicting "the notice carries the session id known at the instant of
teardown". -/
theorem teardown_leave_stale_counterexample :
    (providerRun none [Resp.ok "sess-123"]).2.1 = some "sess-123" ∧
    (providerRun none [Resp.ok "sess-123"]).2.2 =
      [TransportAct.emit (OutboundEvent.leave_session none), TransportAct.disconnect] ∧
    (none : Option String) ≠ some "sess-123" := by decide

/-- C5 (amended): on every teardown path exactly one `leave_session` notice
is emitted, before the transport is closed, and it carries the session id
captured when the effect mounted (possibly null, and possibly stale with
respect to the id known at the instant of teardown). -/
theorem teardown_leave_contract (s0 : Option String) (resps : List Resp) :
    (providerRun s0 resps).2.2 =
      [TransportAct.emit (OutboundEvent.leave_session s0), TransportAct.disconnect] := rfl

/-- C6: blank or whitespace-only chat input appends nothing and emits
nothing; blank sequence-edit content emits nothing; non-blank input appends
exactly one user entry and emits exactly one chat event with the input as
its message. -/
theorem appendUserMessage_guard (st : ProviderState) (s : String) :
    (jsTrim s = "" → handleSend st s = (st, [])) ∧
    (∀ msgId c, jsTrim c = "" → handleSave st msgId c = (st, [])) ∧
    (jsTrim s ≠ "" →
      handleSend st s =
        ({ st with chat := st.chat ++ [{ role := Role.user, content := s }] },
         [OutboundEvent.chat_message st.sessionId s])) :=
  ⟨fun h => by simp [handleSend, h],
   fun msgId c h => by simp [handleSave, h],
   fun h => by simp [handleSend, h, sendMessage]⟩

/-- C6 (witness): `""`-like inputs rejected, `"hi"` accepted, concretely. -/
theorem appendUserMessage_guard_witness :
    handleSend initialState "   " = (initialState, []) ∧
    handleSave initialState "m1" " " = (initialState, []) ∧
    handleSend initialState "hi" =
      ({ initialState with chat := initialState.chat ++ [{ role := Role.user, content := "hi" }] },
       [OutboundEvent.chat_message none "hi"]) :=
  ⟨(appendUserMessage_guard initialState "   ").1 (by decide),
   (appendUserMessage_guard initialState "x").2.1 "m1" " " (by decide),
   (appendUserMessage_guard initialState "hi").2.2 (by decide)⟩

/-- C7: every failed session-creation request clears the locally held
session id (`setSessionId(null)`) and re-enters negotiation from scratch
with no session id; this repeats for any number `n` of consecutive failures
(unbounded retry), no error is surfaced, and a later success persists and
joins normally.  A run of failures only ever ends with the next request
still being attempted. -/
theorem negotiation_failure_retry (n : Nat) (sid : String) (rest : List Resp) :
    joinOrCreateSession none (List.replicate n Resp.err ++ (Resp.ok sid :: rest)) =
      (List.replicate n [NegAct.createReq, NegAct.persist none]).flatten ++
        [NegAct.createReq, NegAct.persist (some sid),
         NegAct.send (OutboundEvent.join_session (some sid))] ∧
    joinOrCreateSession none (List.replicate n Resp.err) =
      (List.replicate n [NegAct.createReq, NegAct.persist none]).flatten ++
        [NegAct.createReq] := by
  constructor
  · induction n with
    | zero => rw [joinOrCreateSession.eq_def]; simp [jsTruthy]
    | succ k ih =>
        rw [List.replicate_succ, List.cons_append, joinOrCreateSession.eq_def]
        simp only [jsTruthy]
        simpa [List.replicate_succ] using ih
  · induction n with
    | zero => rw [joinOrCreateSession.eq_def]; simp [jsTruthy]
    | succ k ih =>
        rw [List.replicate_succ, joinOrCreateSession.eq_def]
        simp only [jsTruthy]
        simpa [List.replicate_succ] using ih

/-- C8: `editSequenceItem` (i.e. `sendSequenceUpdate`) replaces only the
`content` of the item whose `id` matches, leaving its other fields, every
other item, and the list's length and order unchanged; an unmatched id
leaves the sequence unchanged; in all cases exactly one `update_sequence`
event carrying session id, item id and new content is emitted, and the
rest of the provider state is untouched. -/
theorem editSequenceItem_frame (st : ProviderState) (msgId newContent : String) :
    (sendSequenceUpdate st msgId newContent).2 =
      [OutboundEvent.update_sequence st.sessionId msgId newContent] ∧
    (sendSequenceUpdate st msgId newContent).1.sequence.length = st.sequence.length ∧
    (∀ i (h : i < st.sequence.length)
        (h' : i < (sendSequenceUpdate st msgId newContent).1.sequence.length),
      ((sendSequenceUpdate st msgId newContent).1.sequence.get ⟨i, h'⟩).id =
          (st.sequence.get ⟨i, h⟩).id ∧
      ((sendSequenceUpdate st msgId newContent).1.sequence.get ⟨i, h'⟩).type =
          (st.sequence.get ⟨i, h⟩).type ∧
      ((sendSequenceUpdate st msgId newContent).1.sequence.get ⟨i, h'⟩).subject =
          (st.sequence.get ⟨i, h⟩).subject ∧
      ((sendSequenceUpdate st msgId newContent).1.sequence.get ⟨i, h'⟩).timing =
          (st.sequence.get ⟨i, h⟩).timing ∧
      ((sendSequenceUpdate st msgId newContent).1.sequence.get ⟨i, h'⟩).order =
          (st.sequence.get ⟨i, h⟩).order ∧
      ((sendSequenceUpdate st msgId newContent).1.sequence.get ⟨i, h'⟩).content =
          (if (st.sequence.get ⟨i, h⟩).id = msgId then newContent
           else (st.sequence.get ⟨i, h⟩).content)) ∧
    ((∀ m ∈ st.sequence, m.id ≠ msgId) →
      (sendSequenceUpdate st msgId newContent).1.sequence = st.sequence) ∧
    (sendSequenceUpdate st msgId newContent).1.chat = st.chat ∧
    (sendSequenceUpdate st msgId newContent).1.toolNotification = st.toolNotification ∧
    (sendSequenceUpdate st msgId newContent).1.sessionId = st.sessionId ∧
    (sendSequenceUpdate st msgId newContent).1.userId = st.userId := by
  refine ⟨rfl, by simp [sendSequenceUpdate], ?_, ?_, rfl, rfl, rfl, rfl⟩
  · intro i h h'
    simp only [sendSequenceUpdate, List.get_eq_getElem, List.getElem_map]
    split <;> simp
  · intro hno
    simp only [sendSequenceUpdate]
    exact map_replace_eq_self hno

/-- C8 (witness): concrete two-item sequence, matching edit on `"a"`. -/
theorem editSequenceItem_frame_witness :
    ((sendSequenceUpdate
        { initialState with sequence :=
            [{ id := "a", type := "t", subject := "s", content := "c", timing := "w", order := 1 },
             { id := "b", type := "t2", subject := "s2", content := "c2", timing := "w2", order := 2 }] }
        "a" "NEW").1.sequence.get ⟨0, by decide⟩).content =
      (if (([{ id := "a", type := "t", subject := "s", content := "c", timing := "w", order := 1 },
             { id := "b", type := "t2", subject := "s2", content := "c2", timing := "w2", order := 2 }] :
            List OutreachMessage).get ⟨0, by decide⟩).id = "a" then "NEW"
       else (([{ id := "a", type := "t", subject := "s", content := "c", timing := "w", order := 1 },
               { id := "b", type := "t2", subject := "s2", content := "c2", timing := "w2", order := 2 }] :
              List OutreachMessage).get ⟨0, by decide⟩).content) :=
  ((editSequenceItem_frame
      { initialState with sequence :=
          [{ id := "a", type := "t", subject := "s", content := "c", timing := "w", order := 1 },
           { id := "b", type := "t2", subject := "s2", content := "c2", timing := "w2", order := 2 }] }
      "a" "NEW").2.2.1 0 (by decide) (by decide)).2.2.2.2.2

/-! ## JSON round-trip lemmas -/

/-- Decoding a produced hex digit recovers its value. -/
theorem hexVal_hexDigitChar : ∀ n, n < 16 → hexVal (hexDigitChar n) = some n := by decide

/-- Consuming one escaped character: the parser decodes `escChar c` back to
`c` and continues with the remaining input. -/
theorem parseStringBody_escChar (c : Char) (acc tail : List Char) :
    parseStringBody acc (escChar c ++ tail) = parseStringBody (c :: acc) tail := by
  rw [escChar]
  by_cases h1 : c = '"'
  · rw [if_pos h1]; subst h1
    rw [parseStringBody.eq_def]; simp
  · rw [if_neg h1]
    by_cases h2 : c = '\\'
    · rw [if_pos h2]; subst h2
      rw [parseStringBody.eq_def]; simp
    · rw [if_neg h2]
      by_cases h3 : c.toNat = 8
      · rw [if_pos h3]
        have hc : Char.ofNat 8 = c := by rw [← h3]; exact Char.ofNat_toNat c
        rw [parseStringBody.eq_def]; simp; rw [hc]
      · rw [if_neg h3]
        by_cases h4 : c.toNat = 9
        · rw [if_pos h4]
          have hc : Char.ofNat 9 = c := by rw [← h4]; exact Char.ofNat_toNat c
          rw [parseStringBody.eq_def]; simp; rw [hc]
        · rw [if_neg h4]
          by_cases h5 : c.toNat = 10
          · rw [if_pos h5]
            have hc : Char.ofNat 10 = c := by rw [← h5]; exact Char.ofNat_toNat c
            rw [parseStringBody.eq_def]; simp; rw [hc]
          · rw [if_neg h5]
            by_cases h6 : c.toNat = 12
            · rw [if_pos h6]
              have hc : Char.ofNat 12 = c := by rw [← h6]; exact Char.ofNat_toNat c
              rw [parseStringBody.eq_def]; simp; rw [hc]
            · rw [if_neg h6]
              by_cases h7 : c.toNat = 13
              · rw [if_pos h7]
                have hc : Char.ofNat 13 = c := by rw [← h7]; exact Char.ofNat_toNat c
                rw [parseStringBody.eq_def]; simp; rw [hc]
              · rw [if_neg h7]
                by_cases h8 : c.toNat < 32
                · rw [if_pos h8]
                  have h0 : hexVal '0' = some 0 := by decide
                  have hhi : hexVal (hexDigitChar (c.toNat / 16)) = some (c.toNat / 16) :=
                    hexVal_hexDigitChar _ (by omega)
                  have hlo : hexVal (hexDigitChar (c.toNat % 16)) = some (c.toNat % 16) :=
                    hexVal_hexDigitChar _ (by omega)
                  have key : ∀ X, X = c.toNat →
                      parseStringBody (Char.ofNat X :: acc) tail =
                        parseStringBody (c :: acc) tail :=
                    fun X hX => by rw [hX, Char.ofNat_toNat]
                  rw [parseStringBody.eq_def]
                  simp [h0, hhi, hlo]
                  exact key _ (by omega)
                · rw [if_neg h8]
                  rw [List.singleton_append, parseStringBody.eq_def]
                  simp [h1, h2]

/-- The parser decodes an escaped character list followed by the closing
quote back to the original characters. -/
theorem parseStringBody_escape (cs : List Char) :
    ∀ acc, parseStringBody acc (escapeChars cs ++ ['"']) = some (acc.reverse ++ cs) := by
  induction cs with
  | nil =>
      intro acc
      rw [escapeChars, List.nil_append, parseStringBody.eq_def]
      simp
  | cons c cs ih =>
      intro acc
      rw [escapeChars, List.append_assoc, parseStringBody_escChar, ih]
      simp

/-- Serialization round-trip on the stored value domain. -/
theorem jsonParse_stringify (v : Option String) : jsonParse (jsonStringify v) = some v := by
  cases v with
  | none => rfl
  | some s =>
      rw [jsonStringify, jsonParse]
      have hne : String.mk ('"' :: (escapeChars s.data ++ ['"'])) ≠ "null" := by
        intro h
        have hd : ('"' :: (escapeChars s.data ++ ['"'])) = "null".data :=
          congrArg String.data h
        have hnull : "null".data = ['n', 'u', 'l', 'l'] := rfl
        rw [hnull] at hd
        simp at hd
      rw [if_neg hne]
      show (parseStringBody [] (escapeChars s.data ++ ['"'])).map
            (fun cs => some (String.mk cs)) = some (some s)
      rw [parseStringBody_escape s.data []]
      simp

/-- A serialized value is never the empty string (which the hook's
truthiness test would treat as absent). -/
theorem jsonStringify_ne_empty (v : Option String) : jsonStringify v ≠ "" := by
  cases v with
  | none => decide
  | some s =>
      intro h
      have hd : ('"' :: (escapeChars s.data ++ ['"'])) = "".data := congrArg String.data h
      have hemp : "".data = [] := rfl
      rw [hemp] at hd
      simp at hd

/-- C9: writing value `v` under key `k` through the hook's write-through
setter and then constructing a fresh instance bound to `k` yields `v`, for
every medium, key, value and caller-supplied default — both through the
`useState` initializer and through the mount re-sync effect. -/
theorem useLocalStorage_round_trip (medium : Medium) (k : String) (v : Option String)
    (d0 d1 : Option String) :
    useLocalStorageInit (setValue medium k v).2 k d0 = v ∧
    storageSyncEffect (setValue medium k v).2 k d1 = Except.ok v := by
  have hne := jsonStringify_ne_empty v
  have hparse := jsonParse_stringify v
  constructor
  · simp [useLocalStorageInit, setValue, setItem, hne, hparse]
  · simp [storageSyncEffect, setValue, setItem, hne, hparse]

/-- C10 (counterexample): the key-change re-sync path does not fall back to
the caller-supplied default — with the malformed stored value `"\x7boops"` it
raises a parse error, and with a missing key it keeps the previous state
value (here `some "stale"`, not the default `none`). -/
theorem storage_resync_counterexample :
    storageSyncEffect (setItem (fun _ => none) "k" "\x7boops") "k" none = Except.error () ∧
    storageSyncEffect (fun _ => none) "k" (some "stale") = Except.ok (some "stale") ∧
    Except.ok (some "stale") ≠ (Except.ok none : Except Unit (Option String)) := by
  refine ⟨rfl, rfl, by simp⟩

/-- C10 (amended): at initialization a missing key, falsy item or parse
failure yields the caller-supplied default without error; but on the
key-change re-sync path a missing or falsy item leaves the previous state
value in place (the default is not re-applied) and a malformed item raises
the parse error instead of falling back to the default. -/
theorem useLocalStorage_read_paths (medium : Medium) (k : String) (d cur : Option String) :
    (medium k = none → useLocalStorageInit medium k d = d) ∧
    (∀ item, medium k = some item → jsonParse item = none →
      useLocalStorageInit medium k d = d) ∧
    (medium k = none → storageSyncEffect medium k cur = Except.ok cur) ∧
    (∀ item, medium k = some item → item ≠ "" → jsonParse item = none →
      storageSyncEffect medium k cur = Except.error ()) ∧
    (medium k = some "" → storageSyncEffect medium k cur = Except.ok cur) := by
  refine ⟨fun h => ?_, fun item h hp => ?_, fun h => ?_, fun item h hne hp => ?_,
    fun h => ?_⟩
  · simp [useLocalStorageInit, h]
  · by_cases hbl : item = ""
    · simp [useLocalStorageInit, h, hbl]
    · simp [useLocalStorageInit, h, hbl, hp]
  · simp [storageSyncEffect, h]
  · simp [storageSyncEffect, h, hne, hp]
  · simp [storageSyncEffect, h]

/-- C10 (amended, witness): concrete empty and malformed media. -/
theorem useLocalStorage_read_paths_witness :
    useLocalStorageInit (fun _ => none) "session_id" none = none ∧
    useLocalStorageInit (setItem (fun _ => none) "session_id" "\x7boops") "session_id"
      none = none ∧
    storageSyncEffect (setItem (fun _ => none) "session_id" "\x7boops") "session_id"
      (some "cur") = Except.error () :=
  ⟨(useLocalStorage_read_paths (fun _ => none) "session_id" none none).1 rfl,
   (useLocalStorage_read_paths (setItem (fun _ => none) "session_id" "\x7boops")
      "session_id" none none).2.1 "\x7boops" (by simp [setItem]) (by decide),
   (useLocalStorage_read_paths (setItem (fun _ => none) "session_id" "\x7boops")
      "session_id" none (some "cur")).2.2.2.1 "\x7boops" (by simp [setItem])
      (by decide) (by decide)⟩

end Helix
